import Mathlib

/-!
Verification of the checkpoint admission/audit controller.

Shallow embedding of the Rust sources under `src/`:
pure functions become Lean functions, fallible code returns `Except`,
network results (Kubernetes API calls, discovery) are passed in as
explicit arguments, and Rust panics (`unwrap` on `None`) are modelled
as `Except.error` carrying the Rust panic message.
-/

namespace Checkpoint

/-! ## Shared data model -/

/-- Embeds `ServiceAccountInfo` (declared as `types::rule::ServiceAccountInfo`;
the module file `types/rule.rs` is absent from this snapshot).
Modelled from the spec: a service-account reference is a pair of namespace
and name (section 3, RuleSpec; section 4.5). `nspace` stands for the Rust
field `namespace`, which is a Lean keyword. -/
structure ServiceAccountInfo where
  nspace : String
  name : String
deriving DecidableEq, Repr

/-- Embeds the `k8s_openapi` `TokenRequestSpec` as populated by the two
`prepare_kube_client` functions: only `audiences` and `expiration_seconds`
are ever set (the rest stays `Default::default()`). -/
structure TokenRequestSpec where
  audiences : List String
  expirationSeconds : Option Int
deriving DecidableEq, Repr

/-- Embeds the part of kube's `AdmissionRequest<T>` the handlers read:
`uid` and the incoming `object`. -/
structure AdmissionRequest (T : Type) where
  uid : String
  object : Option T

/-- Embeds the part of kube's `AdmissionResponse` the handlers build:
`uid`, `allowed`, the status `message`, and the JSON-Patch `patch`
(a list of patch operations; the wire base64 encoding is irrelevant here).
`P` is the type of a single patch operation. -/
structure AdmissionResponse (P : Type) where
  uid : String
  allowed : Bool
  message : Option String
  patch : Option (List P)

/-- Modelled from the spec: kube's `From<&AdmissionRequest> for AdmissionResponse`
(kube-core is outside this snapshot). The spec fixes it: the response is built
by starting from the request's uid (section 4.6 step 4) and defaults to allowed. -/
def admissionResponseFromRequest {T P : Type} (req : AdmissionRequest T) :
    AdmissionResponse P :=
  { uid := req.uid, allowed := true, message := none, patch := none }

/-- Modelled from the spec: kube's `AdmissionResponse::deny` (outside this
snapshot) sets `allowed := false` with a non-empty message and touches
nothing else (section 3 invariant 5, section 4.6 step 4). -/
def AdmissionResponse.deny {P : Type} (resp : AdmissionResponse P) (msg : String) :
    AdmissionResponse P :=
  { resp with allowed := false, message := some msg }

/-- Modelled from the spec: kube's `AdmissionResponse::with_patch` (outside
this snapshot). The spec fixes the wire behaviour: patch is present only
when non-empty (section 3 invariant 5). -/
def AdmissionResponse.withPatch {P : Type} (resp : AdmissionResponse P)
    (patch : List P) : AdmissionResponse P :=
  if patch.isEmpty then resp else { resp with patch := some patch }

/-! ## Pluralizer (`src/reconcile/policy.rs`, `to_plural` and its use in
`make_role_rules`) -/

/-- The UTF-8 byte length of a character list: Rust's `str::len`. -/
def utf8Len (w : List Char) : Nat := (w.map Char.utf8Size).sum

/-- Embeds `to_plural` from `src/reconcile/policy.rs` lines 159-185, at the
level of character lists. Notes on fidelity:
the Rust code tests `word.ends_with(..)` for "s" "x" "z" "ch" "sh";
for the y-rule it reads `word.chars().nth(word.len() - 2)`, where
`word.len()` is the UTF-8 byte length — so the character examined is the
one at byte-length-minus-two in character positions, which is the
second-to-last character exactly when the word is single-byte throughout,
and is a later character (or out of range, yielding `None`) when the word
holds multi-byte characters. When `word.len() < 2` the Rust subtraction
wraps (release mode) to a huge index and `nth` yields `None`; the guard
below models that. The Rust vowel test is
`!matches!(c, 'a' | 'e' | 'i' | 'o' | 'u')`. -/
def to_plural_chars (w : List Char) : List Char :=
  if ['s'].isSuffixOf w || ['x'].isSuffixOf w || ['z'].isSuffixOf w
      || ['c', 'h'].isSuffixOf w || ['s', 'h'].isSuffixOf w then
    w ++ ['e', 's']
  else if ['y'].isSuffixOf w then
    match (if utf8Len w < 2 then none else w[utf8Len w - 2]?) with
    | some c =>
      if ¬(c = 'a' ∨ c = 'e' ∨ c = 'i' ∨ c = 'o' ∨ c = 'u') then
        w.dropLast ++ ['i', 'e', 's']
      else w ++ ['s']
    | none => w ++ ['s']
  else w ++ ['s']

/-- `to_plural` on strings (the Rust signature is `&str -> String`). -/
def to_plural (word : String) : String :=
  String.mk (to_plural_chars word.toList)

/-- Embeds Rust `str::to_ascii_lowercase` as used in `make_role_rules`
(`resource.kind.to_ascii_lowercase()`): ASCII letters are lowercased,
everything else is untouched; Lean's `Char.toLower` has exactly the
ASCII-only behaviour. -/
def to_ascii_lowercase (s : String) : String :=
  String.mk (s.toList.map Char.toLower)

/-- Embeds the `resources` entry computed by `make_role_rules`
(`src/reconcile/policy.rs` lines 212-217): the explicit `plural` if given,
otherwise the pluralized lowercased kind. -/
def role_rule_resource_entry (plural : Option String) (kind : String) : String :=
  match plural with
  | some p => p
  | none => to_plural (to_ascii_lowercase kind)

/-! ## Leader election (`src/leader_election.rs`) -/

/-- The Rust panic message of `Option::unwrap` on `None`; the `unwrap`
calls inside `lease_expired` and the acquire step are modelled as
`Except.error` with this message. -/
def unwrapNoneMsg : String :=
  "called Option::unwrap() on a None value"

/-- `LEASE_DURATION_SECONDS` (`src/leader_election.rs` line 16). -/
def LEASE_DURATION_SECONDS : Int := 5

/-- Instants are modelled as integer numbers of seconds. chrono datetimes
have a finite representable range (about plus or minus 262000 years);
`checked_add_signed` fails outside it. The exact value of the bound is
irrelevant to the theorems below. -/
def chronoTimeMax : Int := 8270000000000

def chronoTimeMin : Int := -8270000000000

/-- Embeds chrono's `DateTime::checked_add_signed`: the sum when it stays
in the representable range, `none` on overflow. -/
def checked_add_signed (t d : Int) : Option Int :=
  if chronoTimeMin ≤ t + d ∧ t + d ≤ chronoTimeMax then some (t + d) else none

/-- Embeds the `k8s_openapi` `LeaseSpec` fields used by
`leader_election.rs`. -/
structure KubeLeaseSpec where
  acquireTime : Option Int
  renewTime : Option Int
  leaseDurationSeconds : Option Int
  holderIdentity : Option String
  leaseTransitions : Option Int
deriving DecidableEq, Repr

/-- Embeds the `k8s_openapi` `Lease`: `spec` is optional (the metadata is
not read by `lease_expired` or the acquire step). -/
structure KubeLease where
  spec : Option KubeLeaseSpec
deriving DecidableEq, Repr

/-- Embeds `lease_expired` (`src/leader_election.rs` lines 174-196) with
the current instant passed explicitly. The function unwraps `lease.spec`,
then `lease_duration_seconds` (before looking at the timestamps), then the
result of `checked_add_signed` on the branch taken; each `unwrap` of
`None` is a panic, modelled as `Except.error unwrapNoneMsg`. -/
def lease_expired (lease : KubeLease) (now : Int) : Except String Bool :=
  match lease.spec with
  | none => .error unwrapNoneMsg
  | some s =>
    match s.leaseDurationSeconds with
    | none => .error unwrapNoneMsg
    | some d =>
      match s.renewTime with
      | some t =>
        match checked_add_signed t d with
        | none => .error unwrapNoneMsg
        | some e => .ok (decide (now > e))
      | none =>
        match s.acquireTime with
        | some t =>
          match checked_add_signed t d with
          | none => .error unwrapNoneMsg
          | some e => .ok (decide (now > e))
        | none => .ok true

/-- Embeds the acquire step of `acquire_or_create`
(`src/leader_election.rs` lines 42-55): the in-place mutation of an
expired lease before it is patched back (`managed_fields` clearing is
metadata-only and not modelled). `lease.spec.as_mut().unwrap()` on a
spec-less lease is a panic. Rust sets `lease_transitions` to `Some(0)`
when absent and then increments, which is `getD 0 + 1`. -/
def acquire_step (lease : KubeLease) (identity : String) (now : Int) :
    Except String KubeLease :=
  match lease.spec with
  | none => .error unwrapNoneMsg
  | some s =>
    .ok { spec := some { s with
      leaseTransitions := some (s.leaseTransitions.getD 0 + 1),
      acquireTime := some now,
      renewTime := none,
      leaseDurationSeconds := some LEASE_DURATION_SECONDS,
      holderIdentity := some identity } }

/-- The expiry rule as claim C7 words it (spec section 4.3, "Expiry"):
when renewTime is set, expired exactly when now > renewTime + duration;
otherwise when acquireTime is set, expired exactly when
now > acquireTime + duration; otherwise expired. Stated from the claim
for comparison against `lease_expired`. -/
def lease_expired_claim (s : KubeLeaseSpec) (d now : Int) : Bool :=
  match s.renewTime with
  | some t => decide (now > t + d)
  | none =>
    match s.acquireTime with
    | some t => decide (now > t + d)
    | none => true

/-- The timestamp `lease_expired` examines: renewTime when set, otherwise
acquireTime. -/
def examined_time (s : KubeLeaseSpec) : Option Int :=
  match s.renewTime with
  | some t => some t
  | none => s.acquireTime

/-! ## Script host (`src/handler/lua/mod.rs`, `src/handler/js.rs`) -/

/-- Abstract record of one script evaluation inside the sandbox: how many
wall-clock seconds the evaluation of the chunk takes before finishing, and
the value or error it finishes with. The host code observes only the
finished result, delivered through a oneshot channel. -/
structure ScriptRun (V : Type) where
  elapsedSeconds : Int
  result : Except String V

/-- Embeds the handler `Error` enum: the variants of
`src/handler/mod.rs` lines 26-66 together with the variants referenced
from `src/handler/lua/mod.rs`, `src/handler/js.rs` and
`src/handler/js/helper.rs` (whose enclosing module file is absent from
this snapshot). Note that no variant of any kind describes a timeout. -/
inductive HostError where
  | ruleNotFound
  | luaAppDataNotFound
  | serviceAccountInfoNotProvided
  | serviceAccountNotFound
  | serviceAccountDoesNotHaveSecretReference
  | serviceAccountSecretDataDoesNotHaveKey (key : String)
  | serviceAccountSecretNotFound
  | kubernetes (msg : String)
  | kubernetesInClusterConfig (msg : String)
  | kubernetesKubeconfig (msg : String)
  | setLuaSandbox (msg : String)
  | createLuaFunction (msg : String)
  | setLuaValue (msg : String)
  | convertAdmissionRequestToLuaValue (msg : String)
  | createRuntime (msg : String)
  | setLuaCodeName (msg : String)
  | luaEval (msg : String)
  | recvLuaThread (msg : String)
  | serializePatch (msg : String)
  | requestServiceAccountToken
  | prepareLuaContext (msg : String)
  | prepareJsRuntime (msg : String)
  | evalJs (msg : String)
  | createTokioRuntime (msg : String)
  | recvJsThread (msg : String)
deriving DecidableEq, Repr

/-- Embeds `eval_lua_code` (`src/handler/lua/mod.rs` lines 22-68). The
host spawns a dedicated thread, blocks on the chunk's evaluation until it
finishes — for however long that takes — and forwards the finished result
through the oneshot channel; a script failure is wrapped as
`Error::LuaEval`. The function has no deadline parameter and installs no
timer or cancellation: its output depends only on `run.result`, never on
`run.elapsedSeconds`. -/
def eval_lua_code (V : Type) (run : ScriptRun V) : Except HostError V :=
  match run.result with
  | .ok v => .ok v
  | .error e => .error (.luaEval e)

/-- Embeds `eval_js_code` and `eval_js_code_inner` (`src/handler/js.rs`
lines 13-96): the code runs on a dedicated thread with a local event loop,
a script failure is wrapped as `Error::EvalJs`, and the finished result is
forwarded; again there is no deadline or cancellation. -/
def eval_js_code (V : Type) (run : ScriptRun V) : Except HostError V :=
  match run.result with
  | .ok v => .ok v
  | .error e => .error (.evalJs e)

/-! ## Capability-scoped client provisioning
(`src/handler/lua/mod.rs`, `src/handler/js/helper.rs`) -/

/-- The audience string both `prepare_kube_client` functions request. -/
def kubeAudience : String := "https://kubernetes.default.svc.cluster.local"

/-- Embeds the `TokenRequestSpec` built by the Lua host's
`prepare_kube_client` (`src/handler/lua/mod.rs` lines 83-95):
`expiration_seconds = max(timeout_seconds.unwrap_or(10), 10 * 60)`. -/
def luaTokenRequestSpec (timeoutSeconds : Option Int) : TokenRequestSpec :=
  { audiences := [kubeAudience],
    expirationSeconds := some (max (timeoutSeconds.getD 10) (10 * 60)) }

/-- Embeds the `TokenRequestSpec` built by the JS host's
`prepare_kube_client` (`src/handler/js/helper.rs` lines 40-52):
`expiration_seconds = max(timeout_seconds.unwrap_or(10 * 60), 10 * 60)`. -/
def jsTokenRequestSpec (timeoutSeconds : Option Int) : TokenRequestSpec :=
  { audiences := [kubeAudience],
    expirationSeconds := some (max (timeoutSeconds.getD (10 * 60)) (10 * 60)) }

/-- The status of a `TokenRequest` response: the projected token when
granted. -/
structure TokenRequestResult where
  status : Option String

/-- Embeds the Lua host's `prepare_kube_client`
(`src/handler/lua/mod.rs` lines 71-119): sends a token request built with
`luaTokenRequestSpec` (the network call is abstracted as `send`), maps a
missing status to `Error::RequestServiceAccountToken`, and builds the
restricted client from the returned token (abstracted as `mkClient`; the
in-cluster configuration is inherited). -/
def lua_prepare_kube_client (C : Type)
    (send : ServiceAccountInfo → TokenRequestSpec → Except HostError TokenRequestResult)
    (mkClient : String → Except HostError C)
    (sa : ServiceAccountInfo) (timeoutSeconds : Option Int) :
    Except HostError C :=
  match send sa (luaTokenRequestSpec timeoutSeconds) with
  | .error e => .error e
  | .ok tr =>
    match tr.status with
    | none => .error .requestServiceAccountToken
    | some token => mkClient token

/-- Embeds `LuaContextAppData` (`src/handler/lua/mod.rs` lines 17-19).
`C` is the type of a Kubernetes client. -/
structure LuaContextAppData (C : Type) where
  kube_client : Option C

/-- Embeds the app-data preparation in `prepare_lua_ctx`
(`src/handler/lua/mod.rs` lines 121-144): a capability-restricted client
is built (by `prepare_kube_client`, abstracted as `restrict` over the
ambient client) only when the rule spec carries a `serviceAccount`;
otherwise `kube_client` is `none`, whatever the ambient in-cluster client
is. -/
def prepare_lua_app_data (C : Type)
    (restrict : C → ServiceAccountInfo → Option Int → Except HostError C)
    (ambient : C) (saInfo : Option ServiceAccountInfo)
    (timeoutSeconds : Option Int) : Except HostError (LuaContextAppData C) :=
  match saInfo with
  | some sa => (restrict ambient sa timeoutSeconds).map fun c => { kube_client := some c }
  | none => .ok { kube_client := none }

/-- Embeds `extract_kube_client_from_lua_ctx` (`src/handler/lua/mod.rs`
lines 146-154): the restricted client when present, otherwise the
`ServiceAccountInfoNotProvided` capability error. -/
def extract_kube_client_from_lua_ctx (C : Type)
    (appData : LuaContextAppData C) : Except HostError C :=
  match appData.kube_client with
  | some c => .ok c
  | none => .error .serviceAccountInfoNotProvided

/-- Embeds the argument struct of the `kubeGet` helper
(`src/handler/lua/helper.rs` lines 79-88, `src/handler/js/helper.rs`
lines 80-89). `nspace` stands for the Rust field `namespace`. -/
structure KubeGetArgument where
  group : String
  version : String
  kind : String
  plural : Option String
  nspace : Option String
  name : String
deriving DecidableEq, Repr

/-- Embeds the list-params argument of the `kubeList` helper
(`src/handler/lua/helper.rs` lines 141-151). `timeoutParam` stands for
the Rust field `timeout`. -/
structure KubeListArgumentListParams where
  labelSelector : Option String
  fieldSelector : Option String
  timeoutParam : Option Int
  bookmarks : Bool
  limit : Option Int
  continueToken : Option String
deriving DecidableEq, Repr

/-- Embeds the argument struct of the `kubeList` helper
(`src/handler/lua/helper.rs` lines 126-135). -/
structure KubeListArgument where
  group : String
  version : String
  kind : String
  plural : Option String
  nspace : Option String
  listParams : Option KubeListArgumentListParams
deriving DecidableEq, Repr

/-- Embeds the Lua `kubeGet` helper (`src/handler/lua/helper.rs` lines
91-124) after argument deserialization: the cluster read itself
(`api.get_opt`) is abstracted as `clusterGet` and is applied only to a
client successfully extracted from the context app data. -/
def lua_kube_get (C V : Type) (clusterGet : C → KubeGetArgument → Option V)
    (appData : LuaContextAppData C) (arg : KubeGetArgument) :
    Except HostError (Option V) :=
  (extract_kube_client_from_lua_ctx C appData).map fun client => clusterGet client arg

/-- Embeds the Lua `kubeList` helper (`src/handler/lua/helper.rs` lines
154-209), analogously. -/
def lua_kube_list (C V : Type) (clusterList : C → KubeListArgument → List V)
    (appData : LuaContextAppData C) (arg : KubeListArgument) :
    Except HostError (List V) :=
  (extract_kube_client_from_lua_ctx C appData).map fun client => clusterList client arg

/-- Embeds the JS host's `prepare_kube_client`
(`src/handler/js/helper.rs` lines 20-78): it fails with the
service-account-not-provided capability error before any cluster
interaction when the rule spec carries no `serviceAccount`; otherwise it
exchanges a token request (built with `jsTokenRequestSpec`) for a
restricted client, abstracted as `exchange`. -/
def js_prepare_kube_client (C : Type)
    (exchange : ServiceAccountInfo → TokenRequestSpec → Except HostError C)
    (saInfo : Option ServiceAccountInfo) (timeoutSeconds : Option Int) :
    Except HostError C :=
  match saInfo with
  | none => .error .serviceAccountInfoNotProvided
  | some sa => exchange sa (jsTokenRequestSpec timeoutSeconds)

/-- Embeds the JS `ops_kube_get` helper (`src/handler/js/helper.rs` lines
92-129): the restricted client is prepared per call, then the read runs
on it. -/
def ops_kube_get (C V : Type)
    (exchange : ServiceAccountInfo → TokenRequestSpec → Except HostError C)
    (clusterGet : C → KubeGetArgument → Option V)
    (saInfo : Option ServiceAccountInfo) (timeoutSeconds : Option Int)
    (arg : KubeGetArgument) : Except HostError (Option V) :=
  (js_prepare_kube_client C exchange saInfo timeoutSeconds).map fun client =>
    clusterGet client arg

/-- Embeds the JS `ops_kube_list` helper (`src/handler/js/helper.rs`
lines 161-226), analogously. -/
def ops_kube_list (C V : Type)
    (exchange : ServiceAccountInfo → TokenRequestSpec → Except HostError C)
    (clusterList : C → KubeListArgument → List V)
    (saInfo : Option ServiceAccountInfo) (timeoutSeconds : Option Int)
    (arg : KubeListArgument) : Except HostError (List V) :=
  (js_prepare_kube_client C exchange saInfo timeoutSeconds).map fun client =>
    clusterList client arg

/-! ## CronPolicy data model (`src/types/policy.rs`) -/

/-- Embeds `CronPolicyResourceListParams` (`src/types/policy.rs`). -/
structure CronPolicyResourceListParams where
  labelSelector : Option String
  fieldSelector : Option String
deriving DecidableEq, Repr

/-- Embeds `CronPolicyResource`. In the snapshot consistent with
`src/handler/internal.rs` and `src/checker.rs` (both pattern-match
`resource.group` / `resource.version` as `Option`) the two fields are
optional; the spec agrees: group and version may be omitted (section 3,
ResourceSelector). `nspace` stands for the Rust field `namespace`. -/
structure CronPolicyResource where
  group : Option String
  version : Option String
  kind : String
  plural : Option String
  nspace : Option String
  name : Option String
  listParams : Option CronPolicyResourceListParams
deriving DecidableEq, Repr

/-- Embeds `RestartPolicy` (`src/types/policy.rs`). -/
inductive RestartPolicy where
  | OnFailure
  | Never
deriving DecidableEq, Repr

/-- Embeds `CronPolicyNotificationWebhookMethod` (`src/types/policy.rs`). -/
inductive CronPolicyNotificationWebhookMethod where
  | Get | Head | Post | Put | Delete | Connect | Options | Trace | Patch
deriving DecidableEq, Repr

/-- Embeds `CronPolicyNotificationWebhook` (`src/types/policy.rs`);
the URL is kept as a string. -/
structure CronPolicyNotificationWebhook where
  url : String
  method : CronPolicyNotificationWebhookMethod
  headers : List (String × String)
  body : String
deriving DecidableEq, Repr

/-- Embeds `CronPolicyNotificationSlack` (`src/types/policy.rs`). -/
structure CronPolicyNotificationSlack where
  webhookUrl : String
  message : String
deriving DecidableEq, Repr

/-- Embeds `CronPolicyNotification` (`src/types/policy.rs`). -/
structure CronPolicyNotification where
  slack : Option CronPolicyNotificationSlack
  webhook : Option CronPolicyNotificationWebhook
deriving DecidableEq, Repr

/-- Embeds `CronPolicySpec` (`src/types/policy.rs`). `nspace` stands for
the Rust field `namespace`. -/
structure CronPolicySpec where
  suspend : Bool
  schedule : String
  resources : List CronPolicyResource
  code : String
  notifications : CronPolicyNotification
  nspace : String
  restartPolicy : RestartPolicy
deriving DecidableEq, Repr

/-- Embeds the `CronPolicy` custom resource: its cluster-scoped name and
its spec (further metadata is carried through the webhook unchanged). -/
structure CronPolicy where
  name : String
  spec : CronPolicySpec
deriving DecidableEq, Repr

/-! ## Audit worker (`src/bin/checker.rs`, `src/checker.rs`) -/

/-- Embeds `CheckerConfig` (`src/config.rs` lines 62-74). -/
structure CheckerConfig where
  policyName : String
  resources : List CronPolicyResource
  code : String
  notifications : CronPolicyNotification
deriving DecidableEq, Repr

/-- Embeds `SingleOrList` (`src/checker.rs` lines 58-63). `V` is the type
of a fetched Kubernetes object. -/
inductive SingleOrList (V : Type) where
  | single (obj : Option V)
  | list (objs : List V)

/-- Embeds `notify` (`src/checker.rs` lines 131-164): it fires the enabled
notifications, logging and swallowing every delivery error, and returns
unit unconditionally — notification failures cannot change the process
outcome. -/
def notify (_policyName : String) (_output : List (String × String))
    (_notifications : CronPolicyNotification) : Unit :=
  ()

/-- Embeds `main` of the audit worker (`src/bin/checker.rs` lines 12-43).
The fallible environment interactions are passed as arguments: the parsed
config, the `fetch_resources` call on the configured resources, and the
JS evaluation of the script yielding the optional `output` map. The body
sequences them with `?`, calls `notify` when an output map is present
(empty or not), and then returns `Ok(())`. `V` is the object type. -/
def checker_main (V : Type) (config : Except String CheckerConfig)
    (fetch : List CronPolicyResource → Except String (List (SingleOrList V)))
    (evalOutput : String → Except String (Option (List (String × String)))) :
    Except String Unit := do
  let cfg ← config
  let _resources ← fetch cfg.resources
  let output ← evalOutput cfg.code
  match output with
  | some o => pure (notify cfg.policyName o cfg.notifications)
  | none => pure ()

/-- The process exit code of a binary whose `main` returns
`anyhow::Result<()>`: zero on `Ok`, one (non-zero) on `Err`. -/
def process_exit_code (r : Except String Unit) : Nat :=
  match r with
  | .ok _ => 0
  | .error _ => 1

/-! ## Admission handlers (`src/handler.rs`) -/

/-- Embeds `FailurePolicy` (`src/types.rs` lines 11-17). -/
inductive FailurePolicy where
  | Fail
  | Ignore
deriving DecidableEq, Repr

/-- Embeds the `k8s_openapi` `LabelSelectorRequirement` (carried through
the rule spec unchanged). -/
structure LabelSelectorRequirement where
  key : String
  operator : String
  values : Option (List String)
deriving DecidableEq, Repr

/-- Embeds the `k8s_openapi` `LabelSelector` (carried through the rule
spec unchanged). -/
structure LabelSelector where
  matchExpressions : Option (List LabelSelectorRequirement)
  matchLabels : Option (List (String × String))
deriving DecidableEq, Repr

/-- Embeds the `k8s_openapi` `RuleWithOperations` (carried through the
rule spec unchanged). -/
structure RuleWithOperations where
  apiGroups : Option (List String)
  apiVersions : Option (List String)
  operations : Option (List String)
  resources : Option (List String)
  scope : Option String
deriving DecidableEq, Repr

/-- Embeds `ValidatingRuleSpec` and `MutatingRuleSpec` (`src/types.rs`
lines 37-65 and 80-108); the two structs are field-for-field identical. -/
structure RuleSpec where
  failurePolicy : Option FailurePolicy
  namespaceSelector : Option LabelSelector
  objectSelector : Option LabelSelector
  objectRules : Option (List RuleWithOperations)
  timeoutSeconds : Option Int
  code : String
deriving DecidableEq, Repr

/-- Embeds the handler `Error` enum (`src/handler.rs` lines 22-42). -/
inductive HandlerError where
  | ruleNotFound
  | convertAdmissionRequestToLuaValue (msg : String)
  | setGlobalAdmissionRequestValue (msg : String)
  | setLuaCodeName (msg : String)
  | luaExec (msg : String)
  | getDenyReasonValue (msg : String)
  | getPatchValue (msg : String)
  | convertPatchFromLuaValue (msg : String)
  | serializePatch (msg : String)
deriving DecidableEq, Repr

/-- Embeds `validate` (`src/handler.rs` lines 94-145). The rule lookup and
the Lua evaluation are environment interactions passed as arguments:
`rule` is the result of `vr_api.get(rule_name)` (absent is the 404 that
becomes `Error::RuleNotFound`; transport errors abort with no response and
are out of scope here), and `luaEval code` is the outcome of the
`lua.context` block on the rule's code — the optional `deny_reason`
global, or one of the `HandlerError` failures. `P` is the patch-operation
type of the response. -/
def validate (T P : Type) (rule : Option RuleSpec)
    (luaEval : String → Except HandlerError (Option String))
    (req : AdmissionRequest T) : Except HandlerError (AdmissionResponse P) := do
  match rule with
  | none => throw .ruleNotFound
  | some vr =>
    let denyReason ← luaEval vr.code
    let resp : AdmissionResponse P := admissionResponseFromRequest req
    match denyReason with
    | some reason => pure (resp.deny reason)
    | none => pure resp

/-- Embeds `mutate` (`src/handler.rs` lines 169-236), analogously: the
Lua block yields the optional `deny_reason` and the optional `patch`
(a JSON-Patch operation list); the patch, when present, is attached with
`with_patch`. -/
def mutate (T P : Type) (rule : Option RuleSpec)
    (luaEval : String → Except HandlerError (Option String × Option (List P)))
    (req : AdmissionRequest T) : Except HandlerError (AdmissionResponse P) := do
  match rule with
  | none => throw .ruleNotFound
  | some mr =>
    let outcome ← luaEval mr.code
    let resp : AdmissionResponse P := admissionResponseFromRequest req
    let resp :=
      match outcome.1 with
      | some reason => resp.deny reason
      | none => resp
    match outcome.2 with
    | some p => pure (resp.withPatch p)
    | none => pure resp

/-! ## CronPolicy mutating webhook (`src/handler/internal.rs`) -/

/-- Embeds the internal handler `Error` enum (`src/handler/internal.rs`
lines 13-23). -/
inductive InternalError where
  | objectNotExists
  | kubernetes (msg : String)
  | serializeToJson (msg : String)
  | serializePatch (msg : String)
deriving DecidableEq, Repr

/-- The deny message for an explicitly given group/version/kind triple
that discovery does not know (`src/handler/internal.rs` lines 64-69). -/
def gvkNotExistsMessage (g v kind : String) : String :=
  "specified group, version, and kind (`" ++ g ++ "`, `" ++ v ++ "`, `"
    ++ kind ++ "`) do not exists"

/-- The deny message when only a version is given
(`src/handler/internal.rs` line 72). -/
def onlyVersionMessage : String := "only specifying version is not allowed"

/-- The deny message for a kind with no matching group/version
(`src/handler/internal.rs` lines 80-83). -/
def noGvMessage (kind : String) : String :=
  "specified kind (" ++ kind ++ ") does not have matching group/versions"

/-- The deny message for a given group whose kind resolves to no pair
(`src/handler/internal.rs` lines 90-93). -/
def groupKindNoGvMessage (g kind : String) : String :=
  "specified group and kind (" ++ g ++ ", " ++ kind
    ++ ") does not have matching group/versions"

/-- The deny message for a kind with several matching group/versions
(`src/handler/internal.rs` lines 96-100): the pairs are rendered
backquoted as g/v and joined with commas, in discovery order. -/
def multipleGvMessage (kind : String) (gvs : List (String × String)) : String :=
  "specified kind (" ++ kind ++ ") has multiple matching group/versions: "
    ++ String.intercalate "," (gvs.map fun gv => "`" ++ gv.1 ++ "/" ++ gv.2 ++ "`")

/-- Embeds the per-selector body of the `for` loop in `mutate_cronpolicy`
(`src/handler/internal.rs` lines 52-107). The discovery results of
`find_group_version_pairs_by_kind` (`src/util.rs`) are passed as oracles:
`gvsPreferred kind` for `use_preferred_version = true`, `gvsAll kind` for
`false`. An early `return Ok(resp.deny(msg))` becomes the
`Except.error msg` case. Rust's `gvs.pop().unwrap()` takes the last pair
of a list known non-empty, which is `List.getLast`. -/
def process_resource (gvsPreferred gvsAll : String → List (String × String))
    (r : CronPolicyResource) : Except String CronPolicyResource :=
  match r.group, r.version with
  | some g, some v =>
    if (gvsAll r.kind).any fun gv => gv.1 == g && gv.2 == v then .ok r
    else .error (gvkNotExistsMessage g v r.kind)
  | none, some _ => .error onlyVersionMessage
  | _, none =>
    match gvsPreferred r.kind with
    | [] => .error (noGvMessage r.kind)
    | gv0 :: gvrest =>
      match r.group with
      | some g =>
        match (gv0 :: gvrest).find? fun gv => gv.1 == g with
        | some gv => .ok { r with group := some gv.1, version := some gv.2 }
        | none => .error (groupKindNoGvMessage g r.kind)
      | none =>
        if (gv0 :: gvrest).length > 1 then
          .error (multipleGvMessage r.kind (gv0 :: gvrest))
        else
          let gv := (gv0 :: gvrest).getLast (List.cons_ne_nil gv0 gvrest)
          .ok { r with group := some gv.1, version := some gv.2 }

/-- The `for` loop of `mutate_cronpolicy` over all resource selectors:
each selector is processed in order and the first deny aborts. -/
def process_resources (gvsPreferred gvsAll : String → List (String × String)) :
    List CronPolicyResource → Except String (List CronPolicyResource)
  | [] => .ok []
  | r :: rest => do
    let r2 ← process_resource gvsPreferred gvsAll r
    let rest2 ← process_resources gvsPreferred gvsAll rest
    pure (r2 :: rest2)

/-- Embeds `mutate_cronpolicy` (`src/handler/internal.rs` lines 42-116).
The JSON-Patch diff of the serialized original and normalized policies
(`json_patch::diff`, an external crate) is passed as `diffFn`; `P` is the
patch-operation type. Kubernetes transport failures inside discovery are
orthogonal and not modelled — the oracles are total. -/
def mutate_cronpolicy (P : Type) (diffFn : CronPolicy → CronPolicy → List P)
    (gvsPreferred gvsAll : String → List (String × String))
    (req : AdmissionRequest CronPolicy) :
    Except InternalError (AdmissionResponse P) :=
  let resp : AdmissionResponse P := admissionResponseFromRequest req
  match req.object with
  | none => .error .objectNotExists
  | some cp =>
    match process_resources gvsPreferred gvsAll cp.spec.resources with
    | .error msg => .ok (resp.deny msg)
    | .ok rs =>
      let norm : CronPolicy := { cp with spec := { cp.spec with resources := rs } }
      .ok (resp.withPatch (diffFn cp norm))

/-! ## Concrete inputs used by counterexamples and witnesses -/

/-- A long successful script evaluation: 3600 seconds of wall-clock time,
finishing with the value 7. -/
def longRun : ScriptRun Nat := { elapsedSeconds := 3600, result := .ok 7 }

/-- A concrete parsed checker configuration. -/
def checkerConfig0 : CheckerConfig :=
  { policyName := "policy1", resources := [], code := "code",
    notifications := { slack := none, webhook := none } }

/-- A lease with no spec. -/
def leaseNoSpec : KubeLease := { spec := none }

/-- A well-formed lease spec: renewed at 200 with a 5-second duration. -/
def leaseSpec0 : KubeLeaseSpec :=
  { acquireTime := some 100, renewTime := some 200,
    leaseDurationSeconds := some 5, holderIdentity := some "holder-a",
    leaseTransitions := some 1 }

def lease0 : KubeLease := { spec := some leaseSpec0 }

/-- A lease spec with no duration. -/
def leaseSpecNoDur : KubeLeaseSpec :=
  { acquireTime := some 100, renewTime := none,
    leaseDurationSeconds := none, holderIdentity := none,
    leaseTransitions := none }

def leaseNoDur : KubeLease := { spec := some leaseSpecNoDur }

/-- A lease spec whose renew time sits at the edge of the representable
range, so adding the duration overflows. -/
def leaseSpecOverflow : KubeLeaseSpec :=
  { acquireTime := none, renewTime := some chronoTimeMax,
    leaseDurationSeconds := some 5, holderIdentity := none,
    leaseTransitions := none }

def leaseOverflow : KubeLease := { spec := some leaseSpecOverflow }

/-- A concrete rule spec. -/
def ruleSpec0 : RuleSpec :=
  { failurePolicy := none, namespaceSelector := none, objectSelector := none,
    objectRules := none, timeoutSeconds := none, code := "deny_reason = nil" }

/-- A concrete admission request with uid "uid-1". -/
def admissionReq0 : AdmissionRequest Nat := { uid := "uid-1", object := none }

/-- The response `validate` builds for `admissionReq0` when the script
denies with "no". -/
def respDeny0 : AdmissionResponse Nat :=
  (admissionResponseFromRequest admissionReq0).deny "no"

/-- The response `mutate` builds for `admissionReq0` when the script
denies with "no" and yields the patch [1]. -/
def respDenyPatch0 : AdmissionResponse Nat :=
  ((admissionResponseFromRequest admissionReq0).deny "no").withPatch [1]

/-- The response `validate` builds for `admissionReq0` on an allowing
script. -/
def respAllow0 : AdmissionResponse Nat :=
  admissionResponseFromRequest admissionReq0

/-- The response `mutate` builds for `admissionReq0` when the script only
yields the patch [1]. -/
def respPatchOnly0 : AdmissionResponse Nat :=
  (admissionResponseFromRequest admissionReq0).withPatch [1]

/-- Discovery oracle: Deployment lives in exactly apps/v1. -/
def gvsOracleSingle : String → List (String × String) :=
  fun kind => if kind = "Deployment" then [("apps", "v1")] else []

/-- Discovery oracle: Deployment lives in two group/versions. -/
def gvsOracleMulti : String → List (String × String) :=
  fun kind =>
    if kind = "Deployment" then [("apps", "v1"), ("extensions", "v1beta1")] else []

/-- Discovery oracle: nothing is known. -/
def gvsOracleEmpty : String → List (String × String) := fun _ => []

/-- A resource selector naming only a kind. -/
def resourceDeployment : CronPolicyResource :=
  { group := none, version := none, kind := "Deployment", plural := none,
    nspace := none, name := none, listParams := none }

/-- A concrete cron policy selecting `resourceDeployment`. -/
def cronPolicy0 : CronPolicy :=
  { name := "cp1",
    spec := { suspend := false, schedule := "0 0 * * *",
              resources := [resourceDeployment], code := "code",
              notifications := { slack := none, webhook := none },
              nspace := "default", restartPolicy := .Never } }

/-- An admission request carrying `cronPolicy0`. -/
def cronPolicyReq0 : AdmissionRequest CronPolicy :=
  { uid := "uid-cp", object := some cronPolicy0 }

/-- A constant diff function for witnesses. -/
def diffConst7 : CronPolicy → CronPolicy → List Nat := fun _ _ => [7]

/-- A concrete kubeGet argument. -/
def kubeGetArg0 : KubeGetArgument :=
  { group := "", version := "v1", kind := "Pod", plural := none,
    nspace := some "default", name := "pod-1" }

/-- A concrete kubeList argument. -/
def kubeListArg0 : KubeListArgument :=
  { group := "", version := "v1", kind := "Pod", plural := none,
    nspace := some "default", listParams := none }

/-- A cluster-get operation that finds nothing (clients are `Unit`). -/
def noGetOp : Unit → KubeGetArgument → Option Unit := fun _ _ => none

/-- A cluster-list operation that lists nothing. -/
def noListOp : Unit → KubeListArgument → List Unit := fun _ _ => []

/-- A trivial capability restriction over `Unit` clients. -/
def unitRestrict : Unit → ServiceAccountInfo → Option Int → Except HostError Unit :=
  fun _ _ _ => .ok ()

/-- A trivial token exchange over `Unit` clients. -/
def unitExchange : ServiceAccountInfo → TokenRequestSpec → Except HostError Unit :=
  fun _ _ => .ok ()

/-- The app data of a sandbox prepared without a serviceAccount. -/
def emptyAppData : LuaContextAppData Unit := { kube_client := none }

/-- A fetch that succeeds with no objects. -/
def fetchNone : List CronPolicyResource → Except String (List (SingleOrList Unit)) :=
  fun _ => .ok []

/-- A script evaluation that emits the non-empty output map
bad maps-to p1 — a violation. -/
def evalViolation : String → Except String (Option (List (String × String))) :=
  fun _ => .ok (some [("bad", "p1")])

end Checkpoint

namespace Checkpoint

/-! ## Helper lemmas about suffix tests on concatenations -/

theorem isSuffixOf_singleton_concat (a b : Char) (l : List Char) :
    [a].isSuffixOf (l ++ [b]) = (a == b) := by
  simp [List.isSuffixOf, List.isPrefixOf, List.reverse_append]

theorem isSuffixOf_singleton_concat2 (a b c : Char) (l : List Char) :
    [a].isSuffixOf (l ++ [b, c]) = (a == c) := by
  simp [List.isSuffixOf, List.isPrefixOf, List.reverse_append]

theorem isSuffixOf_pair_concat2 (a b c d : Char) (l : List Char) :
    [a, b].isSuffixOf (l ++ [c, d]) = ((b == d) && (a == c)) := by
  simp [List.isSuffixOf, List.isPrefixOf, List.reverse_append, Bool.and_comm]

/-! ## Theorems: C9 (pluralization) -/

theorem utf8Len_eq_length (w : List Char) (h : ∀ x ∈ w, x.utf8Size = 1) :
    utf8Len w = w.length := by
  induction w with
  | nil => rfl
  | cons a t ih =>
    have ha : a.utf8Size = 1 := h a (by simp)
    have ht := ih fun x hx => h x (by simp [hx])
    simp only [utf8Len, List.map_cons, List.sum_cons, List.length_cons] at ht ⊢
    omega

/-- Counterexample for C9. The claim quantifies its rules over every word,
but the program indexes the preceded-by-consonant check by the UTF-8 byte
length (`word.chars().nth(word.len() - 2)`), so on words with multi-byte
characters it examines the wrong character: for the word é a y, which ends
in y preceded by the vowel a, the claim prescribes appending s, yet the
program (byte length 4, so it examines the character at position 2 — the
final y, a non-vowel) strips the y and appends ies; for the word é é b y,
which ends in y preceded by the consonant b, the claim prescribes the ies
form, yet the program (byte length 6, position 4 is out of range, `None`)
appends s. -/
theorem to_plural_byte_index_counterexample :
    to_plural_chars ['é', 'a', 'y'] = ['é', 'a', 'i', 'e', 's']
    ∧ to_plural_chars ['é', 'a', 'y'] ≠ ['é', 'a', 'y'] ++ ['s']
    ∧ to_plural_chars ['é', 'é', 'b', 'y'] = ['é', 'é', 'b', 'y'] ++ ['s']
    ∧ to_plural_chars ['é', 'é', 'b', 'y'] ≠ ['é', 'é', 'b'] ++ ['i', 'e', 's'] := by
  refine ⟨by decide, by decide, by decide, by decide⟩

/-- Claim C9 as amended: on every word made of single-byte characters —
where the byte index examines the second-to-last character, and which
covers the lowercased Kubernetes kinds the function is applied to — the
pluralizer returns word ++ "es" when the word ends in s, x, z, ch or sh
(this rule needs no byte restriction); strips a final y preceded by a
consonant (formalized as a non-vowel character, as in the code) and
appends "ies"; and appends "s" otherwise. On words with multi-byte
characters the y-rules follow the byte index instead (see the
counterexample). The canonical table holds: Pod to pods, Class to
classes, Proxy to proxies, DaemonSet to daemonsets, Quota to quotas.
The rules are stated over explicit decompositions of the word; the
"otherwise" cases shown are the vowel-before-y rule and the one-letter
word "y". -/
theorem to_plural_follows_spec_rules :
    (∀ w : List Char,
      ((∃ u, w = u ++ ['s']) ∨ (∃ u, w = u ++ ['x']) ∨ (∃ u, w = u ++ ['z'])
          ∨ (∃ u, w = u ++ ['c', 'h']) ∨ (∃ u, w = u ++ ['s', 'h'])) →
        to_plural_chars w = w ++ ['e', 's'])
    ∧ (∀ (u : List Char) (c : Char),
        (∀ x ∈ u ++ [c, 'y'], x.utf8Size = 1) →
        ¬(c = 'a' ∨ c = 'e' ∨ c = 'i' ∨ c = 'o' ∨ c = 'u') →
        to_plural_chars (u ++ [c, 'y']) = u ++ [c] ++ ['i', 'e', 's'])
    ∧ (∀ (u : List Char) (c : Char),
        (∀ x ∈ u ++ [c, 'y'], x.utf8Size = 1) →
        (c = 'a' ∨ c = 'e' ∨ c = 'i' ∨ c = 'o' ∨ c = 'u') →
        to_plural_chars (u ++ [c, 'y']) = (u ++ [c, 'y']) ++ ['s'])
    ∧ to_plural_chars ['y'] = ['y', 's']
    ∧ to_plural (to_ascii_lowercase "Pod") = "pods"
    ∧ to_plural (to_ascii_lowercase "Class") = "classes"
    ∧ to_plural (to_ascii_lowercase "Proxy") = "proxies"
    ∧ to_plural (to_ascii_lowercase "DaemonSet") = "daemonsets"
    ∧ to_plural (to_ascii_lowercase "Quota") = "quotas" := by
  refine ⟨?_, ?_, ?_, by decide, by decide, by decide, by decide, by decide, by decide⟩
  · intro w h
    have hs : (['s'].isSuffixOf w || ['x'].isSuffixOf w || ['z'].isSuffixOf w
        || ['c', 'h'].isSuffixOf w || ['s', 'h'].isSuffixOf w) = true := by
      rcases h with ⟨u, rfl⟩ | ⟨u, rfl⟩ | ⟨u, rfl⟩ | ⟨u, rfl⟩ | ⟨u, rfl⟩ <;>
        simp [List.isSuffixOf_iff_suffix]
    simp only [to_plural_chars, hs, if_true]
  · intro u c hascii hc
    have h1 : (['s'].isSuffixOf (u ++ [c, 'y']) || ['x'].isSuffixOf (u ++ [c, 'y'])
        || ['z'].isSuffixOf (u ++ [c, 'y'])
        || ['c', 'h'].isSuffixOf (u ++ [c, 'y'])
        || ['s', 'h'].isSuffixOf (u ++ [c, 'y'])) = false := by
      simp [isSuffixOf_singleton_concat2, isSuffixOf_pair_concat2]
    have h2 : ['y'].isSuffixOf (u ++ [c, 'y']) = true := by
      simp [isSuffixOf_singleton_concat2]
    have hblen : utf8Len (u ++ [c, 'y']) = u.length + 2 := by
      rw [utf8Len_eq_length _ hascii]
      simp
    have hlt : ¬(utf8Len (u ++ [c, 'y']) < 2) := by simp [hblen]
    have hidx : (u ++ [c, 'y'])[utf8Len (u ++ [c, 'y']) - 2]? = some c := by
      rw [hblen, Nat.add_sub_cancel, List.getElem?_append_right (Nat.le_refl _)]
      simp
    have hdrop : (u ++ [c, 'y']).dropLast = u ++ [c] := by
      rw [show u ++ [c, 'y'] = (u ++ [c]) ++ ['y'] by simp]
      exact List.dropLast_concat ..
    simp only [to_plural_chars, h1, h2, Bool.false_eq_true, if_true, if_false]
    rw [if_neg hlt, hidx]
    simp only [if_pos hc, hdrop]
  · intro u c hascii hc
    have h1 : (['s'].isSuffixOf (u ++ [c, 'y']) || ['x'].isSuffixOf (u ++ [c, 'y'])
        || ['z'].isSuffixOf (u ++ [c, 'y'])
        || ['c', 'h'].isSuffixOf (u ++ [c, 'y'])
        || ['s', 'h'].isSuffixOf (u ++ [c, 'y'])) = false := by
      simp [isSuffixOf_singleton_concat2, isSuffixOf_pair_concat2]
    have h2 : ['y'].isSuffixOf (u ++ [c, 'y']) = true := by
      simp [isSuffixOf_singleton_concat2]
    have hblen : utf8Len (u ++ [c, 'y']) = u.length + 2 := by
      rw [utf8Len_eq_length _ hascii]
      simp
    have hlt : ¬(utf8Len (u ++ [c, 'y']) < 2) := by simp [hblen]
    have hidx : (u ++ [c, 'y'])[utf8Len (u ++ [c, 'y']) - 2]? = some c := by
      rw [hblen, Nat.add_sub_cancel, List.getElem?_append_right (Nat.le_refl _)]
      simp
    simp only [to_plural_chars, h1, h2, Bool.false_eq_true, if_true, if_false]
    rw [if_neg hlt, hidx]
    simp only [if_neg (not_not_intro hc)]

/-- Witness for C9: the three rules applied at concrete single-byte
words — fox takes es, puppy becomes puppies, day (vowel before y)
takes s. -/
theorem to_plural_follows_spec_rules_witness :
    to_plural_chars ['f', 'o', 'x'] = ['f', 'o', 'x', 'e', 's']
    ∧ to_plural_chars ['p', 'u', 'p', 'p', 'y'] = ['p', 'u', 'p', 'p', 'i', 'e', 's']
    ∧ to_plural_chars ['d', 'a', 'y'] = ['d', 'a', 'y', 's'] :=
  ⟨to_plural_follows_spec_rules.1 ['f', 'o', 'x']
      (Or.inr (Or.inl ⟨['f', 'o'], rfl⟩)),
   to_plural_follows_spec_rules.2.1 ['p', 'u', 'p'] 'p' (by decide) (by decide),
   to_plural_follows_spec_rules.2.2.1 ['d'] 'a' (by decide) (by decide)⟩

/-! ## Helper lemmas about responses and arithmetic -/

theorem uid_fromRequest {T P : Type} (req : AdmissionRequest T) :
    (admissionResponseFromRequest (P := P) req).uid = req.uid := rfl

theorem uid_deny {P : Type} (resp : AdmissionResponse P) (msg : String) :
    (resp.deny msg).uid = resp.uid := rfl

theorem uid_withPatch {P : Type} (resp : AdmissionResponse P) (p : List P) :
    (resp.withPatch p).uid = resp.uid := by
  unfold AdmissionResponse.withPatch
  split <;> rfl

theorem patch_fromRequest {T P : Type} (req : AdmissionRequest T) :
    (admissionResponseFromRequest (P := P) req).patch = none := rfl

theorem patch_deny {P : Type} (resp : AdmissionResponse P) (msg : String) :
    (resp.deny msg).patch = resp.patch := rfl

theorem patch_withPatch {P : Type} (resp : AdmissionResponse P) (p : List P) :
    (resp.withPatch p).patch = if p.isEmpty then resp.patch else some p := by
  unfold AdmissionResponse.withPatch
  split <;> rfl

theorem checked_add_signed_of_isSome {t d : Int}
    (h : (checked_add_signed t d).isSome) :
    checked_add_signed t d = some (t + d) := by
  unfold checked_add_signed at h ⊢
  split at h
  · simp_all
  · simp at h

/-! ## Theorems: C7 (lease expiry predicate) -/

/-- Claim C7: for every lease object, the expiry predicate used by lease
acquisition holds exactly when: renewTime is set and
now > renewTime + leaseDurationSeconds; otherwise acquireTime is set and
now > acquireTime + leaseDurationSeconds; otherwise (neither time set) the
lease is expired. Stated for leases whose spec and duration are present
and whose examined timestamp addition stays in chrono's range — the code
panics otherwise (see the C10 theorem). -/
theorem lease_expired_matches_claim (lease : KubeLease) (s : KubeLeaseSpec)
    (d now : Int) (hspec : lease.spec = some s)
    (hdur : s.leaseDurationSeconds = some d)
    (hrange : ∀ t, examined_time s = some t → (checked_add_signed t d).isSome) :
    lease_expired lease now = .ok (lease_expired_claim s d now) := by
  obtain ⟨spec?⟩ := lease
  simp only at hspec
  subst hspec
  cases hren : s.renewTime with
  | some t =>
    have h := checked_add_signed_of_isSome (hrange t (by simp [examined_time, hren]))
    simp [lease_expired, lease_expired_claim, hdur, hren, h]
  | none =>
    cases hacq : s.acquireTime with
    | some t =>
      have h := checked_add_signed_of_isSome
        (hrange t (by simp [examined_time, hren, hacq]))
      simp [lease_expired, lease_expired_claim, hdur, hren, hacq, h]
    | none => simp [lease_expired, lease_expired_claim, hdur, hren, hacq]

/-- Witness for C7: a concrete renewed lease, evaluated at now = 206
(renewTime 200 + duration 5 < 206, so expired). -/
theorem lease_expired_matches_claim_witness :
    lease_expired lease0 206 = .ok (lease_expired_claim leaseSpec0 5 206) := by
  apply lease_expired_matches_claim lease0 leaseSpec0 5 206 rfl rfl
  intro t ht
  simp [examined_time, leaseSpec0] at ht
  subst ht
  decide

/-! ## Theorems: C10 (lease totality precondition) -/

/-- Claim C10: lease acquisition is total only under the precondition that
every observed lease carries a spec with leaseDurationSeconds: when
`acquire_or_create` observes an existing lease whose spec is absent (or,
on the expired-acquire path, whose renewTime/acquireTime addition
overflows), the expiry check and the acquire step panic via `unwrap`
instead of returning an error value; under the precondition the expiry
check returns a value. -/
theorem lease_check_panics_outside_precondition :
    (∀ now : Int, lease_expired { spec := none } now = .error unwrapNoneMsg)
    ∧ (∀ (identity : String) (now : Int),
        acquire_step { spec := none } identity now = .error unwrapNoneMsg)
    ∧ (∀ (lease : KubeLease) (s : KubeLeaseSpec) (now : Int),
        lease.spec = some s → s.leaseDurationSeconds = none →
        lease_expired lease now = .error unwrapNoneMsg)
    ∧ (∀ (lease : KubeLease) (s : KubeLeaseSpec) (d t now : Int),
        lease.spec = some s → s.leaseDurationSeconds = some d →
        examined_time s = some t → checked_add_signed t d = none →
        lease_expired lease now = .error unwrapNoneMsg)
    ∧ (∀ (lease : KubeLease) (s : KubeLeaseSpec) (d now : Int),
        lease.spec = some s → s.leaseDurationSeconds = some d →
        (∀ t, examined_time s = some t → (checked_add_signed t d).isSome) →
        ∃ b, lease_expired lease now = .ok b) := by
  refine ⟨fun _ => rfl, fun _ _ => rfl, ?_, ?_, ?_⟩
  · intro lease s now hspec hdur
    obtain ⟨spec?⟩ := lease
    simp only at hspec
    subst hspec
    simp [lease_expired, hdur]
  · intro lease s d t now hspec hdur hexam hadd
    obtain ⟨spec?⟩ := lease
    simp only at hspec
    subst hspec
    cases hren : s.renewTime with
    | some t0 =>
      have ht : t0 = t := by simpa [examined_time, hren] using hexam
      subst ht
      simp [lease_expired, hdur, hren, hadd]
    | none =>
      cases hacq : s.acquireTime with
      | some t0 =>
        have ht : t0 = t := by simpa [examined_time, hren, hacq] using hexam
        subst ht
        simp [lease_expired, hdur, hren, hacq, hadd]
      | none => simp [examined_time, hren, hacq] at hexam
  · intro lease s d now hspec hdur hrange
    exact ⟨lease_expired_claim s d now,
      lease_expired_matches_claim lease s d now hspec hdur hrange⟩

/-- Witness for C10: the spec-less lease and the duration-less lease make
the expiry check and acquire step panic; the overflow lease panics; the
well-formed lease gets a value. -/
theorem lease_check_panics_outside_precondition_witness :
    lease_expired leaseNoSpec 0 = .error unwrapNoneMsg
    ∧ acquire_step leaseNoSpec "holder-b" 0 = .error unwrapNoneMsg
    ∧ lease_expired leaseNoDur 0 = .error unwrapNoneMsg
    ∧ lease_expired leaseOverflow 0 = .error unwrapNoneMsg
    ∧ ∃ b, lease_expired lease0 206 = .ok b := by
  refine ⟨lease_check_panics_outside_precondition.1 0,
    lease_check_panics_outside_precondition.2.1 "holder-b" 0,
    lease_check_panics_outside_precondition.2.2.1 leaseNoDur leaseSpecNoDur 0 rfl rfl,
    lease_check_panics_outside_precondition.2.2.2.1 leaseOverflow leaseSpecOverflow
      5 chronoTimeMax 0 rfl rfl rfl (by decide),
    lease_check_panics_outside_precondition.2.2.2.2 lease0 leaseSpec0 5 206 rfl rfl ?_⟩
  intro t ht
  simp [examined_time, leaseSpec0] at ht
  subst ht
  decide

/-! ## Theorems: C8 (token request expiration) -/

/-- Claim C8: for every service-account reference used to provision a
capability-scoped client, the token request carries
expirationSeconds = max(expectedTtl, 600) where expectedTtl is the rule's
timeoutSeconds (default 10 when absent) — the Lua host computes
max(timeoutSeconds.unwrap_or(10), 600) and the JS host
max(timeoutSeconds.unwrap_or(600), 600), which agree pointwise — and the
requested expiration is never below 600 seconds. -/
theorem token_request_expiration_never_below_600 (ts : Option Int) :
    (luaTokenRequestSpec ts).expirationSeconds = some (max (ts.getD 10) 600)
    ∧ (jsTokenRequestSpec ts).expirationSeconds = some (max (ts.getD 10) 600)
    ∧ (600 : Int) ≤ max (ts.getD 10) 600
    ∧ (luaTokenRequestSpec ts).audiences = [kubeAudience]
    ∧ (jsTokenRequestSpec ts).audiences = [kubeAudience] := by
  refine ⟨rfl, ?_, le_max_right _ _, rfl, rfl⟩
  cases ts with
  | none => decide
  | some t => rfl

/-! ## Theorems: C1 (no evaluation deadline) -/

/-- Counterexample for C1. The claim says that an evaluation exceeding
min(timeoutSeconds, 10) seconds is cancelled and the operation returns a
sandbox-timeout error instead of a script result. Concretely, with
timeoutSeconds = 5 (deadline min(5, 10) = 5) and a script evaluation that
takes 3600 seconds, both hosts return the script's value `.ok 7` — no
error of any kind — refuting the claim. -/
theorem eval_deadline_counterexample :
    min ((some (5 : Int)).getD 10) 10 < longRun.elapsedSeconds
    ∧ eval_lua_code Nat longRun = .ok 7
    ∧ eval_js_code Nat longRun = .ok 7 := by
  refine ⟨by decide, rfl, rfl⟩

/-- Claim C1 as amended: the script host enforces no wall-clock deadline.
`eval_lua_code` and `eval_js_code` take no timeout parameter and install
no timer or cancellation: their output is independent of how long the
evaluation ran and is exactly the script's own result — successes are
forwarded as-is and script failures are wrapped as the LuaEval / EvalJs
evaluation errors. No sandbox-timeout error variant exists in the handler
error type. -/
theorem eval_returns_script_result_without_deadline (V : Type)
    (run : ScriptRun V) (n : Int) :
    eval_lua_code V { run with elapsedSeconds := n } = eval_lua_code V run
    ∧ eval_js_code V { run with elapsedSeconds := n } = eval_js_code V run
    ∧ (∀ v, run.result = .ok v →
        eval_lua_code V run = .ok v ∧ eval_js_code V run = .ok v)
    ∧ (∀ e, run.result = .error e →
        eval_lua_code V run = .error (.luaEval e)
          ∧ eval_js_code V run = .error (.evalJs e)) := by
  refine ⟨rfl, rfl, ?_, ?_⟩
  · intro v hv
    constructor <;> simp [eval_lua_code, eval_js_code, hv]
  · intro e he
    constructor <;> simp [eval_lua_code, eval_js_code, he]

/-- Witness for the amended C1: the 3600-second successful run yields its
value through both hosts. -/
theorem eval_returns_script_result_without_deadline_witness :
    eval_lua_code Nat longRun = .ok 7 ∧ eval_js_code Nat longRun = .ok 7 :=
  (eval_returns_script_result_without_deadline Nat longRun 0).2.2.1 7 rfl

/-! ## Theorems: C3 (capability containment) -/

/-- Claim C3: for every rule whose spec carries no serviceAccount, any
call of the kubeGet or kubeList helper returns the
service-account-not-provided capability error and never a successful
cluster read, regardless of the ambient in-cluster client identity. On
the Lua host the prepared app data holds no client and the helpers fail
on extraction; on the JS host the per-call client preparation fails
before any cluster interaction. The cluster read operations (arbitrary
`clusterGet`/`clusterList`) are never applied. -/
theorem kube_helpers_require_service_account (C V : Type)
    (restrict : C → ServiceAccountInfo → Option Int → Except HostError C)
    (exchange : ServiceAccountInfo → TokenRequestSpec → Except HostError C)
    (clusterGet : C → KubeGetArgument → Option V)
    (clusterList : C → KubeListArgument → List V)
    (ambient : C) (ts : Option Int) (argGet : KubeGetArgument)
    (argList : KubeListArgument) (appData : LuaContextAppData C) :
    prepare_lua_app_data C restrict ambient none ts = .ok { kube_client := none }
    ∧ (prepare_lua_app_data C restrict ambient none ts = .ok appData →
        lua_kube_get C V clusterGet appData argGet
            = .error .serviceAccountInfoNotProvided
          ∧ lua_kube_list C V clusterList appData argList
            = .error .serviceAccountInfoNotProvided)
    ∧ ops_kube_get C V exchange clusterGet none ts argGet
        = .error .serviceAccountInfoNotProvided
    ∧ ops_kube_list C V exchange clusterList none ts argList
        = .error .serviceAccountInfoNotProvided := by
  refine ⟨rfl, ?_, rfl, rfl⟩
  intro h
  obtain ⟨kc⟩ := appData
  simp only [prepare_lua_app_data, Except.ok.injEq, LuaContextAppData.mk.injEq] at h
  subst h
  exact ⟨rfl, rfl⟩

/-- Witness for C3: concrete helper calls against the app data prepared
with no serviceAccount. -/
theorem kube_helpers_require_service_account_witness :
    lua_kube_get Unit Unit noGetOp emptyAppData kubeGetArg0
        = .error .serviceAccountInfoNotProvided
    ∧ lua_kube_list Unit Unit noListOp emptyAppData kubeListArg0
        = .error .serviceAccountInfoNotProvided :=
  (kube_helpers_require_service_account Unit Unit unitRestrict unitExchange
    noGetOp noListOp () none kubeGetArg0 kubeListArg0 emptyAppData).2.1 rfl

/-! ## Theorems: C2 (audit worker exit code) -/

/-- Counterexample for C2. The claim says the audit worker exits non-zero
exactly when the script produced a non-empty output map. Concretely, with
a well-parsed config, a successful fetch, and a script producing the
non-empty map bad maps-to p1, `main` returns `Ok(())` (notification
errors are logged and swallowed) and the process exit code is 0 — not
non-zero — refuting the claim. -/
theorem checker_exit_counterexample :
    process_exit_code (checker_main Unit (.ok checkerConfig0) fetchNone evalViolation)
        = 0
    ∧ ([("bad", "p1")] : List (String × String)) ≠ [] := by
  exact ⟨rfl, by simp⟩

/-- Claim C2 as amended: the audit worker's exit code ignores the output
map entirely. It exits zero whenever config parsing, resource fetching
and script evaluation all succeed — whether the output map is absent,
empty, or non-empty (a present map only triggers notifications, whose
delivery failures are swallowed) — and it exits non-zero exactly when one
of those three steps fails. -/
theorem checker_exit_code_ignores_output (V : Type) (cfg : CheckerConfig)
    (objs : List (SingleOrList V)) (out : Option (List (String × String)))
    (e : String)
    (fetch : List CronPolicyResource → Except String (List (SingleOrList V)))
    (evalOutput : String → Except String (Option (List (String × String)))) :
    process_exit_code (checker_main V (.ok cfg) (fun _ => .ok objs)
        (fun _ => .ok out)) = 0
    ∧ process_exit_code (checker_main V (.error e) fetch evalOutput) = 1
    ∧ process_exit_code (checker_main V (.ok cfg) (fun _ => .error e) evalOutput) = 1
    ∧ process_exit_code (checker_main V (.ok cfg) (fun _ => .ok objs)
        (fun _ => .error e)) = 1 := by
  refine ⟨?_, rfl, rfl, rfl⟩
  cases out <;> rfl

/-! ## Theorems: C4 (admission uid round-trip) -/

/-- Claim C4: for every well-formed AdmissionReview whose request carries
uid U, the AdmissionResponse produced by the validate and mutate handlers
carries uid equal to U, for both allow and deny outcomes (the rule lookup
and the script outcome are arbitrary; whenever a response is produced at
all, its uid is the request's). -/
theorem admission_handlers_echo_request_uid (T P : Type) (rule : Option RuleSpec)
    (luaEvalV : String → Except HandlerError (Option String))
    (luaEvalM : String → Except HandlerError (Option String × Option (List P)))
    (req : AdmissionRequest T) (resp : AdmissionResponse P) :
    (validate T P rule luaEvalV req = .ok resp → resp.uid = req.uid)
    ∧ (mutate T P rule luaEvalM req = .ok resp → resp.uid = req.uid) := by
  constructor
  · intro h
    cases rule with
    | none => simp [validate, Bind.bind, Except.bind, Pure.pure, Except.pure] at h
    | some vr =>
      cases hv : luaEvalV vr.code with
      | error e => simp [validate, hv, Bind.bind, Except.bind, Pure.pure, Except.pure] at h
      | ok dr =>
        cases dr with
        | none =>
          simp [validate, hv, Bind.bind, Except.bind, Pure.pure, Except.pure] at h
          subst h
          rfl
        | some reason =>
          simp [validate, hv, Bind.bind, Except.bind, Pure.pure, Except.pure] at h
          subst h
          rfl
  · intro h
    cases rule with
    | none => simp [mutate, Bind.bind, Except.bind, Pure.pure, Except.pure] at h
    | some mr =>
      cases hv : luaEvalM mr.code with
      | error e => simp [mutate, hv, Bind.bind, Except.bind, Pure.pure, Except.pure] at h
      | ok out =>
        obtain ⟨dr, patchOut⟩ := out
        rcases dr with _ | reason <;> rcases patchOut with _ | p <;>
            simp [mutate, hv, Bind.bind, Except.bind, Pure.pure, Except.pure] at h <;> subst h <;>
          simp [uid_withPatch, uid_deny, uid_fromRequest]

/-- Witness for C4: a deny outcome on the validating path and a
deny-plus-patch outcome on the mutating path, both echoing uid-1. -/
theorem admission_handlers_echo_request_uid_witness :
    respDeny0.uid = admissionReq0.uid ∧ respDenyPatch0.uid = admissionReq0.uid :=
  ⟨(admission_handlers_echo_request_uid Nat Nat (some ruleSpec0)
      (fun _ => .ok (some "no")) (fun _ => .ok (some "no", some [1]))
      admissionReq0 respDeny0).1 rfl,
   (admission_handlers_echo_request_uid Nat Nat (some ruleSpec0)
      (fun _ => .ok (some "no")) (fun _ => .ok (some "no", some [1]))
      admissionReq0 respDenyPatch0).2 rfl⟩

/-! ## Theorems: C5 (patch only on the mutating path, only when non-empty) -/

/-- Claim C5: an admission response carries a patch only on the mutating
path and only when the patch is non-empty — the validate handler never
attaches a patch, and the mutate handler's response contains a patch
exactly when the script yielded a non-empty JSON-Patch operation list.
(The attachment itself goes through the spec-modelled `with_patch`, which
drops empty patches; see `AdmissionResponse.withPatch`.) -/
theorem validate_no_patch_mutate_nonempty_patch (T P : Type)
    (rule : Option RuleSpec)
    (luaEvalV : String → Except HandlerError (Option String))
    (luaEvalM : String → Except HandlerError (Option String × Option (List P)))
    (req : AdmissionRequest T) (resp : AdmissionResponse P)
    (vr : RuleSpec) (dr : Option String) (patchOut : Option (List P)) :
    (validate T P rule luaEvalV req = .ok resp → resp.patch = none)
    ∧ (rule = some vr → luaEvalM vr.code = .ok (dr, patchOut) →
        mutate T P rule luaEvalM req = .ok resp →
        ∀ p : List P, resp.patch = some p ↔ (patchOut = some p ∧ p ≠ [])) := by
  constructor
  · intro h
    cases rule with
    | none => simp [validate, Bind.bind, Except.bind, Pure.pure, Except.pure] at h
    | some vr0 =>
      cases hv : luaEvalV vr0.code with
      | error e => simp [validate, hv, Bind.bind, Except.bind, Pure.pure, Except.pure] at h
      | ok dr0 =>
        cases dr0 with
        | none =>
          simp [validate, hv, Bind.bind, Except.bind, Pure.pure, Except.pure] at h
          subst h
          rfl
        | some reason =>
          simp [validate, hv, Bind.bind, Except.bind, Pure.pure, Except.pure] at h
          subst h
          rfl
  · intro hrule hlua h
    subst hrule
    rcases patchOut with _ | q
    · rcases dr with _ | reason <;>
        simp [mutate, hlua, Bind.bind, Except.bind, Pure.pure, Except.pure] at h <;>
        subst h <;> intro p <;>
        simp [patch_deny, patch_fromRequest, admissionResponseFromRequest]
    · rcases dr with _ | reason <;>
        simp [mutate, hlua, Bind.bind, Except.bind, Pure.pure, Except.pure] at h <;>
        subst h <;> intro p <;>
        rcases q with _ | ⟨a, as⟩ <;>
        simp [patch_withPatch, patch_deny, patch_fromRequest,
          admissionResponseFromRequest] <;>
        rintro rfl <;> simp

/-- Witness for C5: an allowing validation carries no patch; a mutation
that yielded the one-operation patch carries exactly it. -/
theorem validate_no_patch_mutate_nonempty_patch_witness :
    respAllow0.patch = none
    ∧ (respPatchOnly0.patch = some [1]
        ↔ (some [1] = some [1] ∧ ([1] : List Nat) ≠ [])) :=
  ⟨(validate_no_patch_mutate_nonempty_patch Nat Nat (some ruleSpec0)
      (fun _ => .ok none) (fun _ => .ok (none, some [1]))
      admissionReq0 respAllow0 ruleSpec0 none (some [1])).1 rfl,
   (validate_no_patch_mutate_nonempty_patch Nat Nat (some ruleSpec0)
      (fun _ => .ok none) (fun _ => .ok (none, some [1]))
      admissionReq0 respPatchOnly0 ruleSpec0 none (some [1])).2 rfl rfl rfl [1]⟩

/-! ## Theorems: C6 (cron-policy selector normalization) -/

/-- Claim C6: for every incoming CronPolicy, the policy-admission mutating
webhook processes each resource selector with absent group and version as
follows: when exactly one group/version pair hosts the kind it fills both
fields in; when several pairs host the kind it denies with a message
naming the multiple matching group/versions; when no pair hosts the kind
it denies for absence; and on full success the returned JSON-Patch equals
diff(original policy, normalized policy) — a deny from any selector is
propagated as the response. -/
theorem cronpolicy_webhook_normalizes_selectors (P : Type)
    (diffFn : CronPolicy → CronPolicy → List P)
    (gvsPreferred gvsAll : String → List (String × String))
    (req : AdmissionRequest CronPolicy) (cp : CronPolicy)
    (r : CronPolicyResource) (g v : String)
    (rs : List CronPolicyResource) (msg : String) :
    (r.group = none → r.version = none → gvsPreferred r.kind = [(g, v)] →
      process_resource gvsPreferred gvsAll r
        = .ok { r with group := some g, version := some v })
    ∧ (r.group = none → r.version = none → 2 ≤ (gvsPreferred r.kind).length →
      process_resource gvsPreferred gvsAll r
        = .error (multipleGvMessage r.kind (gvsPreferred r.kind)))
    ∧ (r.group = none → r.version = none → gvsPreferred r.kind = [] →
      process_resource gvsPreferred gvsAll r = .error (noGvMessage r.kind))
    ∧ (req.object = some cp →
      process_resources gvsPreferred gvsAll cp.spec.resources = .error msg →
      mutate_cronpolicy P diffFn gvsPreferred gvsAll req
        = .ok ((admissionResponseFromRequest req).deny msg))
    ∧ (req.object = some cp →
      process_resources gvsPreferred gvsAll cp.spec.resources = .ok rs →
      mutate_cronpolicy P diffFn gvsPreferred gvsAll req
        = .ok ((admissionResponseFromRequest req).withPatch
            (diffFn cp { cp with spec := { cp.spec with resources := rs } }))) := by
  refine ⟨?_, ?_, ?_, ?_, ?_⟩
  · intro hg hv hgvs
    obtain ⟨gr, vr0, k, pl, ns, nm, lp⟩ := r
    simp only at hg hv hgvs
    subst hg
    subst hv
    simp [process_resource, hgvs]
  · intro hg hv hlen
    obtain ⟨gr, vr0, k, pl, ns, nm, lp⟩ := r
    simp only at hg hv hlen
    subst hg
    subst hv
    cases hgvs : gvsPreferred k with
    | nil => rw [hgvs] at hlen; simp at hlen
    | cons gv0 rest =>
      rw [hgvs] at hlen
      have hgt : (gv0 :: rest).length > 1 := by
        simp only [List.length_cons] at hlen ⊢
        omega
      have hne : rest ≠ [] := by
        cases rest
        · simp at hgt
        · simp
      simp [process_resource, hgvs, hgt, hne]
  · intro hg hv hgvs
    obtain ⟨gr, vr0, k, pl, ns, nm, lp⟩ := r
    simp only at hg hv hgvs
    subst hg
    subst hv
    simp [process_resource, hgvs]
  · intro hobj hproc
    obtain ⟨uid, obj⟩ := req
    simp only at hobj
    subst hobj
    simp [mutate_cronpolicy, hproc]
  · intro hobj hproc
    obtain ⟨uid, obj⟩ := req
    simp only at hobj
    subst hobj
    simp [mutate_cronpolicy, hproc]

/-- Witness for C6: the Deployment-only selector against three concrete
discovery oracles (single, multiple, empty), and the full webhook run on
a concrete policy for both the deny and the patch outcomes. -/
theorem cronpolicy_webhook_normalizes_selectors_witness :
    process_resource gvsOracleSingle gvsOracleSingle resourceDeployment
        = .ok { resourceDeployment with group := some "apps", version := some "v1" }
    ∧ process_resource gvsOracleMulti gvsOracleMulti resourceDeployment
        = .error (multipleGvMessage resourceDeployment.kind
            (gvsOracleMulti resourceDeployment.kind))
    ∧ process_resource gvsOracleEmpty gvsOracleEmpty resourceDeployment
        = .error (noGvMessage resourceDeployment.kind)
    ∧ mutate_cronpolicy Nat diffConst7 gvsOracleEmpty gvsOracleEmpty cronPolicyReq0
        = .ok ((admissionResponseFromRequest cronPolicyReq0).deny
            (noGvMessage resourceDeployment.kind))
    ∧ mutate_cronpolicy Nat diffConst7 gvsOracleSingle gvsOracleSingle cronPolicyReq0
        = .ok ((admissionResponseFromRequest cronPolicyReq0).withPatch
            (diffConst7 cronPolicy0
              { cronPolicy0 with spec := { cronPolicy0.spec with resources :=
                  [{ resourceDeployment with
                      group := some "apps", version := some "v1" }] } })) :=
  ⟨(cronpolicy_webhook_normalizes_selectors Nat diffConst7 gvsOracleSingle
      gvsOracleSingle cronPolicyReq0 cronPolicy0 resourceDeployment "apps" "v1"
      [] "").1 rfl rfl (by decide),
   (cronpolicy_webhook_normalizes_selectors Nat diffConst7 gvsOracleMulti
      gvsOracleMulti cronPolicyReq0 cronPolicy0 resourceDeployment "" ""
      [] "").2.1 rfl rfl (by decide),
   (cronpolicy_webhook_normalizes_selectors Nat diffConst7 gvsOracleEmpty
      gvsOracleEmpty cronPolicyReq0 cronPolicy0 resourceDeployment "" ""
      [] "").2.2.1 rfl rfl (by decide),
   (cronpolicy_webhook_normalizes_selectors Nat diffConst7 gvsOracleEmpty
      gvsOracleEmpty cronPolicyReq0 cronPolicy0 resourceDeployment "" ""
      [] (noGvMessage resourceDeployment.kind)).2.2.2.1 rfl rfl,
   (cronpolicy_webhook_normalizes_selectors Nat diffConst7 gvsOracleSingle
      gvsOracleSingle cronPolicyReq0 cronPolicy0 resourceDeployment "" ""
      [{ resourceDeployment with group := some "apps", version := some "v1" }]
      "").2.2.2.2 rfl rfl⟩

end Checkpoint
